import Mathlib

/-!
Verification development for `metadata_generator.py`, a single-file tool
that joins a CSV of artifact rows with an XML table of contents, validates
DOIs, synthesizes two XML documents per artifact and packages them into
deterministic zip archives.

The Python source is shallowly embedded: pure fragments become Lean
functions, exceptions become `Except`, Python dicts become lookup
functions, and the two regular expressions of the source (the DOI
pattern and the line-collapsing substitution of `my_prettify`) are
translated into executable character-list parsers whose case analysis
follows the backtracking behaviour of the original patterns.
-/

set_option maxRecDepth 2048

namespace MG

/- ## Configuration constants (lines 15-21 of the source) -/

def PATH_OUTPUT : String := "artifacts-metadata"

def PROCEEDING_NAME : String := "PPoPP23"

/-- `PROCEEDING_PREFIX = 'ppopp23-p'`. -/
def PROCEEDING_PREF : String := "ppopp23-p"

def CALLBACK_EMAIL : String := "****@*******.***"

/-- `DATE_ISSUED = (2023, 1, 6)`. -/
def DATE_ISSUED : Nat × Nat × Nat := (2023, 1, 6)

/- ## Errors and console messages

Python raises `ValueError` (via `unwrap`) or `AssertionError` (via
`assert`); both abort the whole run.  Console prints are modelled as a
message list. -/

inductive Err where
  | valueErr (msg : String)
  | assertErr
deriving DecidableEq, Repr

inductive Msg where
  /-- `print(f'#{tn}:\t{title}')` when the CSV and XML titles agree. -/
  | titleMatch (tn title : String)
  /-- the two diagnostic lines printed when the titles differ. -/
  | titleMismatch (tn xmlTitle csvTitle : String)
  /-- `print(f'(Info: Skipping #{tn}.)')`. -/
  | skipInfo (tn : String)
deriving DecidableEq, Repr

/-- Is a message the informational skip message? -/
def Msg.isSkipInfo : Msg → Bool
  | .skipInfo _ => true
  | _ => false

/- ## Input data model

One CSV row is a Python `dict`; `row.get(k)` is modelled as a lookup
function.  One `<paper>` element of the TOC XML exposes the fields the
program reads; a missing XML element is `none` (that is what
`select_one` returning `None` means). -/

def Row : Type := String → Option String

/-- One `<author>` element.  Field text is kept raw; the program strips it
at the use site.  The XML element names `prefix`/`suffix` are rendered
here as `prefixName`/`suffixName`. -/
structure Author where
  sequence_no : Option String
  prefixName : Option String
  first_name : Option String
  middle_name : Option String
  last_name : Option String
  suffixName : Option String
  email_address : Option String
  orcid : Option String
  /-- text of the first `affiliations > affiliation > institution`. -/
  affiliation : Option String
deriving DecidableEq, Repr

/-- One `<paper>` element of `acmcms-toc.xml`. -/
structure Paper where
  event_tracking_number : Option String
  paper_title : Option String
  authors : List Author
deriving DecidableEq, Repr

/- ## XML documents

`BeautifulSoup` trees are built once and only serialized, so an ordered
element tree with an attribute list (Python dicts preserve insertion
order) is a faithful value model. -/

inductive XNode where
  | elem (name : String) (attrs : List (String × String)) (children : List XNode)
  | text (s : String)
  | cdata (s : String)

/-- A document: optional doctype plus root nodes. -/
structure XDoc where
  doctype : Option String
  roots : List XNode

def XNode.nodeName : XNode → Option String
  | .elem n _ _ => some n
  | _ => none

def XNode.attr (k : String) : XNode → Option String
  | .elem _ attrs _ => (attrs.find? (fun kv => kv.1 == k)).map (fun kv => kv.2)
  | _ => none

/- ## The DOI pattern (lines 355-364)

```
re.match(r'(?:doi:|https?://(?:dx\.)?doi\.org/)?(10.[.\d]+)/([^/]+)$', doi)
```

Note that the `.` in `10.` is an *unescaped* wildcard: it matches any
character except a newline.  The translation below follows the
pattern's deterministic backtracking:

* at most one of the five concrete scheme spellings can be a textual
  prefix of the input, and whenever one is, the body after it must start
  with `1`, so the empty-scheme alternative can never rescue a failed
  parse (the schemes start with `d`/`h`);
* `[.\d]+` is greedy and `/` is not in the class, so the prefix run is
  the maximal dot/digit run after the wildcard character;
* `[^/]+` is greedy and includes `\n`, so `$` is only ever tested at the
  true end of the string: the suffix is the whole remainder, which must
  be non-empty and contain no `/`.

`\d` is modelled as an ASCII decimal digit. -/

def isDotDigit (c : Char) : Bool := c == '.' || c.isDigit

/-- Strip one alternation branch: the remainder when `pat` is a prefix. -/
def tryStrip (pat s : List Char) : Option (List Char) :=
  if pat.isPrefixOf s then some (s.drop pat.length) else none

def schDoi : List Char := ['d', 'o', 'i', ':']

def schHttpsDx : List Char :=
  ['h', 't', 't', 'p', 's', ':', '/', '/', 'd', 'x', '.', 'd', 'o', 'i', '.', 'o', 'r', 'g', '/']

def schHttps : List Char :=
  ['h', 't', 't', 'p', 's', ':', '/', '/', 'd', 'o', 'i', '.', 'o', 'r', 'g', '/']

def schHttpDx : List Char :=
  ['h', 't', 't', 'p', ':', '/', '/', 'd', 'x', '.', 'd', 'o', 'i', '.', 'o', 'r', 'g', '/']

def schHttp : List Char :=
  ['h', 't', 't', 'p', ':', '/', '/', 'd', 'o', 'i', '.', 'o', 'r', 'g', '/']

/-- Strip the optional `doi:` / `http(s)://(dx.)doi.org/` scheme.
The five spellings are pairwise incompatible textual prefixes, so
trying them in any fixed order is equivalent to the regex's
alternation. -/
def stripScheme (s : List Char) : List Char :=
  match tryStrip schDoi s with
  | some r => r
  | none =>
  match tryStrip schHttpsDx s with
  | some r => r
  | none =>
  match tryStrip schHttps s with
  | some r => r
  | none =>
  match tryStrip schHttpDx s with
  | some r => r
  | none =>
  match tryStrip schHttp s with
  | some r => r
  | none => s

/-- The six scheme spellings (the empty one included). -/
def doiSchemes : List (List Char) :=
  [[], schDoi, schHttpsDx, schHttps, schHttpDx, schHttp]

/-- The anchored body `(10.[.\d]+)/([^/]+)$` (with `.` a wildcard). -/
def parseCore (t : List Char) : Option (List Char × List Char) :=
  match t with
  | '1' :: '0' :: c :: rest =>
    if c == '\n' then none
    else
      match rest.dropWhile isDotDigit with
      | '/' :: sfx =>
        if (rest.takeWhile isDotDigit).isEmpty then none
        else if sfx.isEmpty || sfx.contains '/' then none
        else some ('1' :: '0' :: c :: rest.takeWhile isDotDigit, sfx)
      | _ => none
  | _ => none

/-- The whole DOI pattern: the `url` setter's match, yielding the
`(group(1), group(2))` pair. -/
def parseDOIChars (s : List Char) : Option (List Char × List Char) :=
  parseCore (stripScheme s)

/-- `DOI.full`: the canonical `prefix/suffix` rendering. -/
def doiFull (p sfx : List Char) : List Char := p ++ '/' :: sfx

/-- `DOI.url`: the canonical `https://doi.org/prefix/suffix` rendering. -/
def doiUrl (p sfx : List Char) : List Char := schHttps ++ p ++ '/' :: sfx

/-- Model of Python `repr` on the well-behaved strings this program
formats with `{…!r}` (no quotes or escapes inside). -/
def pyRepr (s : String) : String := "'" ++ s ++ "'"

/-- `DOI(doi)` on an already `.strip()`-ped string: parse or raise
`ValueError(f'{doi!r} is not a valid DOI URL')`. -/
def doiParseE (s : String) : Except Err (List Char × List Char) :=
  match parseDOIChars s.data with
  | some pr => .ok pr
  | none => .error (.valueErr (pyRepr s ++ " is not a valid DOI URL"))

/-- The exact set of strings the code's pattern accepts, stated
declaratively: an optional scheme, then `10`, then one arbitrary
non-newline character (the unescaped `.`), then a non-empty dot/digit
run, a literal `/`, and a non-empty suffix without `/`. -/
def DOIShape (s : List Char) : Prop :=
  ∃ sch c run sfx, sch ∈ doiSchemes ∧
    s = sch ++ '1' :: '0' :: c :: (run ++ '/' :: sfx) ∧
    c ≠ '\n' ∧ run ≠ [] ∧ (∀ x ∈ run, isDotDigit x = true) ∧
    sfx ≠ [] ∧ '/' ∉ sfx

/-- Modelled from the claim's words: the same pattern but with the
prefix segment required to be the literal `10.` followed by one or more
digit/dot characters (i.e. the dot escaped). -/
def claimCore (t : List Char) : Bool :=
  match t with
  | '1' :: '0' :: '.' :: rest =>
    match rest.dropWhile isDotDigit with
    | '/' :: sfx =>
      !(rest.takeWhile isDotDigit).isEmpty && !sfx.isEmpty && !sfx.contains '/'
    | _ => false
  | _ => false

/-- Modelled from the claim's words: acceptance with optional scheme
and the literal-dot prefix. -/
def claimAccept (s : List Char) : Bool := claimCore (stripScheme s)

/- ## Helpers shared by the builders -/

/-- `unwrap(value, msg)` (lines 317-320): `None` raises. -/
def unwrapE {α : Type} (v : Option α) (e : Err) : Except Err α :=
  match v with
  | some x => .ok x
  | none => .error e

/-- Python `str.strip()`: drop whitespace from both ends. -/
def pyStrip (s : String) : String :=
  String.mk (((s.data.dropWhile Char.isWhitespace).reverse.dropWhile Char.isWhitespace).reverse)

/-- `' '.join(i for i in xs if i != '')`. -/
def joinNonEmpty (xs : List String) : String :=
  String.intercalate " " (xs.filter (fun i => i ≠ ""))

/-- Decimal digit run of Python `int`. -/
def digitsToNat : List Char → Option Nat
  | [] => none
  | cs => cs.foldl
      (fun acc c => match acc with
        | some n => if c.isDigit then some (n * 10 + (c.toNat - 48)) else none
        | none => none)
      (some 0)

/-- Model of Python `int(s)` on an already stripped string: an optional
sign followed by decimal digits, `ValueError` otherwise. -/
def pyInt (s : String) : Except Err Int :=
  let parsed : Option Int :=
    match s.data with
    | '-' :: rest => (digitsToNat rest).map (fun n => -(n : Int))
    | '+' :: rest => (digitsToNat rest).map (fun n => (n : Int))
    | cs => (digitsToNat cs).map (fun n => (n : Int))
  match parsed with
  | some n => .ok n
  | none => .error (.valueErr ("invalid literal for int() with base 10: " ++ pyRepr s))

/-- Model of Python `assert`. -/
def pyAssert (b : Bool) : Except Err Unit :=
  if b then .ok () else .error .assertErr

/- ## The author loop of `create_zenodo_xml` (lines 165-231)

Each `<author>` yields one `mods:name` element, emitted in the order the
authors appear in the TOC record; `author_seqs` tracks already seen
sequence numbers for the two `assert`s. -/

def modsNS : String := "http://www.loc.gov/mods/v3"

/-- The `mods:name` block built for one author (lines 209-231). -/
def authorBlock (seq : Int) (firstName middleName lastName displayName
    email orcid affiliation : String) : XNode :=
  .elem "mods:name" [("xmlns:mods", modsNS), ("ID", "artseq-" ++ toString (seq - 1))]
    [ .elem "mods:namePart" [("type", "given")] [.text (joinNonEmpty [firstName, middleName])]
    , .elem "mods:namePart" [("type", "family")] [.text lastName]
    , .elem "mods:namePart" [("type", "termsOfAddress")] [.text ""]
    , .elem "mods:displayForm" [] [.text displayName]
    , .elem "mods:nameIdentifier" [("type", "ORCID")] [.text orcid]
    , .elem "mods:role" [] [.elem "mods:roleTerm" [] [.text "Contributor"]]
    , .elem "mods:nameIdentifier" [("type", "email")] [.text email]
    , .elem "mods:affiliation" [] [.text affiliation]
    ]

/-- Missing-element message for an author field. -/
def authorFieldErr (field : String) : Err :=
  .valueErr ("Element /erights_record/paper/authors/author/" ++ field ++ " is missing in XML")

/-- One iteration of the author loop: parse and check the sequence
number, unwrap the eight fields, build the `mods:name` block. -/
def processAuthor (seen : List Int) (a : Author) : Except Err (Int × XNode) := do
  let seqTxt ← unwrapE a.sequence_no (authorFieldErr "sequence_no")
  let seq ← pyInt (pyStrip seqTxt)
  pyAssert (seq > 0)
  pyAssert (!seen.contains seq)
  let pfx ← unwrapE a.prefixName (authorFieldErr "prefix")
  let firstName ← unwrapE a.first_name (authorFieldErr "first_name")
  let middleName ← unwrapE a.middle_name (authorFieldErr "middle_name")
  let lastName ← unwrapE a.last_name (authorFieldErr "last_name")
  let sfxName ← unwrapE a.suffixName (authorFieldErr "suffix")
  let displayName := joinNonEmpty
    [pyStrip pfx, pyStrip firstName, pyStrip middleName, pyStrip lastName, pyStrip sfxName]
  let email ← unwrapE a.email_address (authorFieldErr "email_address")
  let orcid ← unwrapE a.orcid (authorFieldErr "ORCID")
  let affiliation ← unwrapE a.affiliation
    (authorFieldErr "affiliations/affiliation/institution")
  return (seq, authorBlock seq (pyStrip firstName) (pyStrip middleName) (pyStrip lastName)
    displayName (pyStrip email) (pyStrip orcid) (pyStrip affiliation))

/-- The whole loop, in source order, threading `author_seqs`. -/
def processAuthors (seen : List Int) : List Author → Except Err (List XNode)
  | [] => .ok []
  | a :: rest => do
    let (seq, blk) ← processAuthor seen a
    let blks ← processAuthors (seq :: seen) rest
    return blk :: blks

/- ## Badges (lines 240-258) -/

def badgeColumns : List String :=
  ["Available", "Functional", "Reusable", "Replicated", "Reproduced", "Best"]

/-- The badge set: the stripped non-empty values of the six badge
columns (a Python `set`; only membership is ever used). -/
def badgeSetE (row : Row) : Except Err (List String) := do
  let vals ← badgeColumns.mapM (fun column =>
    unwrapE (row column) (.valueErr ("Column " ++ pyRepr column ++ " is missing in CSV")))
  return (vals.map pyStrip).filter (fun v => v ≠ "")

/-- The fixed badge vocabulary: `(csv_id, xml_id, xml_desc)`. -/
def badgeTable : List (String × String × String) :=
  [ ("#acm:artifacts-available", "artifacts_available_v101", "Artifacts Available")
  , ("#acm:artifacts-functional", "artifacts_evaluated_functional_v101", "Artifacts Evaluated — Functional")
  , ("#acm:artifacts-reusable", "artifacts_evaluated_reusable_v101", "Artifacts Evaluated — Reusable")
  , ("#acm:results-replicated", "results_replicated_v101", "Results Replicated")
  , ("#acm:results-reproduced", "results_reproduced_v101", "Results Reproduced")
  ]

/-- One `mods:topic` leaf for a vocabulary entry. -/
def badgeTopic (e : String × String × String) : XNode :=
  .elem "mods:topic" [("authority", e.2.1)] [.text e.2.2]

/-- The `mods:topic` children of the badges subject: the vocabulary
entries whose `csv_id` is in the badge set, in table order. -/
def badgeTopics (badges : List String) : List XNode :=
  (badgeTable.filter (fun e => badges.contains e.1)).map badgeTopic

/- ## `create_manifest_xml` (lines 120-134) -/

def create_manifest_xml (doiPrefixPart : String) : XDoc :=
  { doctype := some "submission PUBLIC \"-//Atypon//DTD Literatum Content Submission Manifest DTD v4.2 20140519//EN\" \"atypon/submissionmanifest.4.2.dtd\""
  , roots :=
    [ .elem "submission"
        [("group-doi", doiPrefixPart ++ "/artifacts-group"), ("submission-type", "full")]
        [ .elem "callback" [] [.elem "email" [] [.text CALLBACK_EMAIL]]
        , .elem "processing-instructions" []
            [.elem "make-live" [("on-condition", "no-fatals")] []]
        ]
    ] }

/- ## `create_zenodo_xml` (lines 137-314) -/

/-- `html.escape` (used on `PROCEEDING_NAME` inside the CDATA text). -/
def htmlEscape (s : String) : String :=
  s.data.foldr (fun c acc =>
    (match c with
     | '&' => "&amp;"
     | '<' => "&lt;"
     | '>' => "&gt;"
     | '"' => "&quot;"
     | '\'' => "&#x27;"
     | _ => String.singleton c) ++ acc) ""

def xsiNS : String := "http://www.w3.org/2001/XMLSchema-instance"

/-- The fixed `mods:extension` block (lines 266-305);
`doiPrefixPart` is `arti_doi.prefix`. -/
def extensionBlock (doiPrefixPart : String) : XNode :=
  .elem "mods:extension" [("xmlns:mods", modsNS)]
    [ .elem "atpn:do-extensions"
        [ ("xmlns:atpn", "http://www.atypon.com/digital-objects")
        , ("xsi:schemaLocation", "http://www.atypon.com/digital-objects http://www.atypon.com/digital-objects/digital-objects.xsd")]
        [ .elem "atpn:description" []
            [.cdata ("<p>Artifact appendix item for " ++ htmlEscape PROCEEDING_NAME ++ "</p>")]
        , .elem "atpn:copyright" [] [.text "Author(s)"]
        , .elem "atpn:version" [] [.text "1.0"]
        , .elem "atpn:softwareDependencies" [] []
        , .elem "atpn:hardwareDependencies" [] []
        , .elem "atpn:installation" [] []
        , .elem "atpn:otherInstructions" [] []
        , .elem "atpn:eiInstallation" [] []
        , .elem "atpn:eiParameterization" [] []
        , .elem "atpn:eiEvaluation" [] []
        , .elem "atpn:eiWorkflow" [] []
        , .elem "atpn:eiOtherInstructions" [] []
        , .elem "atpn:dataDocumentation" [] []
        , .elem "atpn:provenance" [] [.text ""]
        , .elem "atpn:accessCondition" [] [.text "free"]
        , .elem "atpn:licenseUrl" [] []
        , .elem "atpn:keywords" [("nested-label", "NONE")] [.text ""]
        , .elem "atpn:baseDoi" [] [.text (doiPrefixPart ++ "/artifact-doe-class")]
        ]
    ]

/-- `f'{DATE_ISSUED[0]}-{DATE_ISSUED[1]:02}-{DATE_ISSUED[2]:02}'`. -/
def pad0 (w : Nat) (n : Nat) : String :=
  let s := toString n
  String.mk (List.replicate (w - s.length) '0') ++ s

def dateIssuedISO : String :=
  toString DATE_ISSUED.1 ++ "-" ++ pad0 2 DATE_ISSUED.2.1 ++ "-" ++ pad0 2 DATE_ISSUED.2.2

/-- The full metadata ("zenodo") document builder. -/
def create_zenodo_xml (toc_paper : Paper) (arti_row : Row) : Except Err XDoc := do
  let artiUrl ← unwrapE (arti_row "Available URL")
    (.valueErr "Column 'Available URL' is missing in CSV")
  let arti_doi ← doiParseE (pyStrip artiUrl)
  let tocTitle ← unwrapE toc_paper.paper_title
    (.valueErr "Element /erights_record/paper/paper_title is missing in XML")
  let authorBlks ← processAuthors [] toc_paper.authors
  let badges ← badgeSetE arti_row
  let doiTxt ← unwrapE (arti_row "DOI") (.valueErr "Column 'DOI' is missing in CSV")
  let doi ← doiParseE (pyStrip doiTxt)
  let modsChildren : List XNode :=
    [ .elem "mods:identifier" [("xmlns:mods", modsNS), ("type", "doi")]
        [.text (String.mk (doiFull arti_doi.1 arti_doi.2))]
    , .elem "mods:titleInfo" [("xmlns:mods", modsNS), ("ID", "title")]
        [ .elem "mods:title" [] [.text (pyStrip tocTitle)]
        , .elem "mods:subTitle" [] []
        ]
    ] ++ authorBlks ++
    [ .elem "mods:subject" [("xmlns:mods", modsNS), ("authority", "artifact_type"), ("ID", "type")]
        [.elem "mods:topic" [("authority", "artfc-software")] [.text "software"]]
    , .elem "mods:subject" [("xmlns:mods", modsNS), ("authority", "reproducibility-types"), ("ID", "badges")]
        (badgeTopics badges)
    , .elem "mods:relatedItem"
        [ ("xmlns:mods", modsNS), ("displayLabel", "Related Article")
        , ("xlink:href", String.mk (doiFull doi.1 doi.2)), ("ID", "relatedDoi01")]
        [.text ""]
    , extensionBlock (String.mk arti_doi.1)
    , .elem "mods:originInfo" [("xmlns:mods", modsNS)]
        [.elem "mods:dateIssued" [("encoding", "iso8601")] [.text dateIssuedISO]]
    ]
  return { doctype := none
         , roots :=
           [ .elem "mets"
               [ ("xmlns", "http://www.loc.gov/METS/")
               , ("xmlns:xlink", "http://www.w3.org/1999/xlink")
               , ("xmlns:xsi", xsiNS)
               , ("xsi:schemaLocation", "http://www.loc.gov/METS/ http://www.loc.gov/standards/mets/mets.xsd")
               , ("TYPE", "artifact-doe")]
               [ .elem "mets:dmdSec" [("xmlns:mets", "http://www.loc.gov/METS/"), ("ID", "DMD")]
                   [ .elem "mets:mdWrap" [("MDTYPE", "MODS")]
                       [ .elem "mets:xmlData" []
                           [ .elem "mods"
                               [ ("xmlns", modsNS)
                               , ("xsi:schemaLocation", "http://www.loc.gov/mods/v3 http://www.loc.gov/standards/mods/v3/mods.xsd")]
                               modsChildren
                           ]
                       ]
                   ]
               , .elem "mets:structMap" [("xmlns:mets", "http://www.loc.gov/METS/")]
                   [.elem "mets:div" [] [.text ""]]
               ]
           ] }

/- ## The archive packager (lines 91-117)

One `ZipInfo` per entry, in the order the loop writes them.  `writestr`
computes the CRC of the file data itself, so `crc` records only the
explicit `zinfo.CRC = 0` assignment made for directories. -/

structure ZipEntry where
  path : String
  /-- `zip_date = (Y, M, D, 0, 0, 0)`. -/
  date : Nat × Nat × Nat × Nat × Nat × Nat
  /-- `zinfo.create_system = 3` (POSIX). -/
  create_system : Nat
  /-- `zinfo.external_attr`. -/
  external_attr : Nat
  /-- the explicit `zinfo.CRC = 0` for directories. -/
  crc : Option Nat
  /-- `None` for `f.mkdir`, the document for `f.writestr`. -/
  content : Option XDoc

def zipDate : Nat × Nat × Nat × Nat × Nat × Nat :=
  (DATE_ISSUED.1, DATE_ISSUED.2.1, DATE_ISSUED.2.2, 0, 0, 0)

/-- `os.path.join(PATH_OUTPUT, f'artifacts_{suffix}_{Y:04}{M:02}{D:02}.zip')`. -/
def zipPathFor (sfx : String) : String :=
  PATH_OUTPUT ++ "/" ++ "artifacts_" ++ sfx ++ "_" ++
    pad0 4 DATE_ISSUED.1 ++ pad0 2 DATE_ISSUED.2.1 ++ pad0 2 DATE_ISSUED.2.2 ++ ".zip"

/-- The four entries written for one artifact, in loop order. -/
def zipEntriesFor (sfx : String) (manifest zenodo : XDoc) : List ZipEntry :=
  [ { path := "manifest.xml", date := zipDate, create_system := 3
    , external_attr := 0o644 <<< 16, crc := none, content := some manifest }
  , { path := sfx ++ "/", date := zipDate, create_system := 3
    , external_attr := (0o40755 <<< 16) ||| 0x10, crc := some 0, content := none }
  , { path := sfx ++ "/meta/", date := zipDate, create_system := 3
    , external_attr := (0o40755 <<< 16) ||| 0x10, crc := some 0, content := none }
  , { path := sfx ++ "/meta/" ++ sfx ++ ".xml", date := zipDate, create_system := 3
    , external_attr := 0o644 <<< 16, crc := none, content := some zenodo }
  ]

/- ## The TOC lookup table (lines 39-45)

`toc_papers` is a dict comprehension over the `<paper>` elements that
have an `event_tracking_number` child; Python dict insertion overwrites
silently, so the *last* paper with a given key wins.  The dict's only
use is `.get`, so it is modelled as a lookup function. -/

def tocPapersMap (papers : List Paper) : String → Option Paper :=
  papers.foldl
    (fun m p =>
      match p.event_tracking_number with
      | some etn => fun k => if k = pyStrip etn then some p else m k
      | none => m)
    (fun _ => none)

/- ## The per-row body of `main` (lines 47-117) -/

/-- The value a processed row contributes: the printed messages and
(unless the row is skipped) the archive path with its four entries. -/
def RowResult : Type := List Msg × Option (String × List ZipEntry)

def processRow (tocPapers : String → Option Paper) (arti_row : Row) :
    Except Err RowResult := do
  let tn0 ← unwrapE (arti_row (PROCEEDING_PREF ++ "#"))
    (.valueErr ("Column " ++ PROCEEDING_PREF ++ "# is missing in CSV"))
  let tracking_number := pyStrip tn0
  let csvTitle0 ← unwrapE (arti_row "Title") (.valueErr "Column 'Title' is missing in CSV")
  let csv_title := pyStrip csvTitle0
  let toc_paper ← unwrapE (tocPapers (PROCEEDING_PREF ++ tracking_number))
    (.valueErr ("Tracking number #" ++ tracking_number ++ " is missing in XML"))
  let tocTitle0 ← unwrapE toc_paper.paper_title
    (.valueErr "Element /erights_record/paper/paper_title is missing in XML")
  let toc_title := pyStrip tocTitle0
  let titleMsgs : List Msg :=
    if toc_title = csv_title then [.titleMatch tracking_number toc_title]
    else [.titleMismatch tracking_number toc_title csv_title]
  let artiUrl0 ← unwrapE (arti_row "Available URL")
    (.valueErr "Column 'Available URL' is missing in CSV")
  let arti_url := pyStrip artiUrl0
  if arti_url = "Unavailable" then
    return (titleMsgs ++ [.skipInfo tracking_number], none)
  else
    let arti_doi ← doiParseE arti_url
    let doiTxt ← unwrapE (arti_row "DOI") (.valueErr "Column 'DOI' is missing in CSV")
    let _paper_doi ← doiParseE (pyStrip doiTxt)
    let manifest_xml := create_manifest_xml (String.mk arti_doi.1)
    let zenodo_xml ← create_zenodo_xml toc_paper arti_row
    let sfx := String.mk arti_doi.2
    return (titleMsgs, some (zipPathFor sfx, zipEntriesFor sfx manifest_xml zenodo_xml))

/- ## The collapse pass of `my_prettify` (lines 329-336)

```
re.sub(r'^( *)(<[^\n/].*)\n(?:\1  ([^\n<>]*)\n)?\1(</.*\n)', r'\1\2\3\4',
       text, flags=re.MULTILINE)
```

Every match starts at a line start (the pattern begins with `^`) and
consumes two or three whole newline-terminated lines, and the
replacement is a single line, so the substitution is modelled on the
list of newline-terminated line contents.  `( *)` is greedy and a space
can never match the following `<`, so group 1 is exactly the leading
spaces of the first line; the optional text-line group is tried first,
and a line cannot be both a text line (no `<`) and a closing line
(starts with `</` after the indent), so the scan is deterministic.
`re.sub` resumes scanning right after a match, i.e. at the next line. -/

abbrev Line := List Char

def leadingSpaces : Line → Nat
  | [] => 0
  | c :: t => if c = ' ' then leadingSpaces t + 1 else 0

/-- `^( *)(<[^\n/].*)\n`: returns the indent when the line matches. -/
def isOpenLine (l : Line) : Option Nat :=
  match l.drop (leadingSpaces l) with
  | '<' :: c :: _ =>
    if c == '/' || c == '\n' then none else some (leadingSpaces l)
  | _ => none

/-- `\1  ([^\n<>]*)\n` against a known group-1 indent `k`. -/
def isTextLine (k : Nat) (l : Line) : Bool :=
  decide (l.take (k + 2) = List.replicate (k + 2) ' ') &&
    (l.drop (k + 2)).all (fun c => !(c == '<' || c == '>' || c == '\n'))

/-- `\1(</.*\n)` against a known group-1 indent `k`. -/
def isCloseLine (k : Nat) (l : Line) : Bool :=
  decide (l.take k = List.replicate k ' ') &&
    match l.drop k with
    | '<' :: '/' :: _ => true
    | _ => false

/-- Replacement `\1\2\3\4` for a three-line match. -/
def merge3 (l1 : Line) (k : Nat) (l2 l3 : Line) : Line :=
  l1 ++ l2.drop (k + 2) ++ l3.drop k

/-- Replacement `\1\2\3\4` when the optional text group is absent. -/
def merge2 (l1 : Line) (k : Nat) (l2 : Line) : Line :=
  l1 ++ l2.drop k

/-- The whole `re.sub`: one left-to-right pass over the lines.  When a
match fails at a line the scan resumes at the next line; when a match
succeeds the scan resumes after the consumed lines. -/
def collapseLines : List Line → List Line
  | [] => []
  | [l1] => [l1]
  | l1 :: l2 :: rest2 =>
    match isOpenLine l1 with
    | none => l1 :: collapseLines (l2 :: rest2)
    | some k =>
      if isTextLine k l2 then
        match rest2 with
        | l3 :: rest3 =>
          if isCloseLine k l3 then merge3 l1 k l2 l3 :: collapseLines rest3
          else l1 :: collapseLines (l2 :: l3 :: rest3)
        | [] => l1 :: collapseLines [l2]
      else if isCloseLine k l2 then merge2 l1 k l2 :: collapseLines rest2
      else l1 :: collapseLines (l2 :: rest2)

/-- Can the lines directly after a collapsed match extend the merged
line into a new match on a second pass? -/
def rematchRisk (k : Nat) : List Line → Bool
  | [] => false
  | x :: rs =>
    isCloseLine k x ||
      (isTextLine k x &&
        match rs with
        | [] => false
        | y :: _ => isCloseLine k y)

/-- `noRematch ls`: no collapsed match of the first pass is immediately
followed by lines that would combine with its merged line on a second
pass.  The recursion mirrors `collapseLines`. -/
def noRematch : List Line → Bool
  | [] => true
  | [_] => true
  | l1 :: l2 :: rest2 =>
    match isOpenLine l1 with
    | none => noRematch (l2 :: rest2)
    | some k =>
      if isTextLine k l2 then
        match rest2 with
        | l3 :: rest3 =>
          if isCloseLine k l3 then !rematchRisk k rest3 && noRematch rest3
          else noRematch (l2 :: l3 :: rest3)
        | [] => noRematch [l2]
      else if isCloseLine k l2 then !rematchRisk k rest2 && noRematch rest2
      else noRematch (l2 :: rest2)

/- ## `MyFormatter.attributes` (lines 367-376)

The override returns `tag.attrs.items()` in insertion order (the
inherited implementation sorts them), mapping a value to `None` — which
bs4 renders as a valueless attribute — only when
`empty_attributes_are_booleans` is set and the value is `''`. -/

def myFormatterAttributes (empty_attributes_are_booleans : Bool)
    (attrs : List (String × String)) : List (String × Option String) :=
  attrs.map (fun kv =>
    (kv.1, if empty_attributes_are_booleans && kv.2 == "" then none else some kv.2))

/-- `MyFormatter.__init__` only overrides `indent`;
`empty_attributes_are_booleans` keeps the bs4 `Formatter` default,
which is `False`, and `my_prettify` instantiates `MyFormatter()`. -/
def myFormatterEmptyAttrsAreBooleans : Bool := false

/- ## Concrete sample values used in the theorems below -/

/-- Two distinct papers carrying the same lookup key. -/
def paperDup1 : Paper :=
  { event_tracking_number := some "ppopp23-p7", paper_title := some "Paper A", authors := [] }

def paperDup2 : Paper :=
  { event_tracking_number := some "ppopp23-p7", paper_title := some "Paper B", authors := [] }

/-- A CSV row whose tracking key joins to the duplicated papers;
its URL is the skip sentinel so the row completes without an archive. -/
def dupRow : Row := fun k =>
  if k = "ppopp23-p#" then some "7"
  else if k = "Title" then some "Paper B"
  else if k = "Available URL" then some "Unavailable"
  else none

/-- An author record with every element present. -/
def mkAuthor (seq firstName lastName : String) : Author :=
  { sequence_no := some seq, prefixName := some "", first_name := some firstName
  , middle_name := some "", last_name := some lastName, suffixName := some ""
  , email_address := some "a@example.com", orcid := some "0000-0002-1825-0097"
  , affiliation := some "Example University" }

/-- A complete CSV row matching the worked example of the spec. -/
def sampleRow : Row := fun k =>
  if k = "ppopp23-p#" then some "42"
  else if k = "Title" then some "Fast Caches"
  else if k = "Available URL" then some "https://doi.org/10.1145/zenodo.999"
  else if k = "DOI" then some "10.1145/3456789"
  else if k = "Available" then some "#acm:artifacts-available"
  else if k = "Functional" then some "#acm:artifacts-functional"
  else if k = "Reusable" then some ""
  else if k = "Replicated" then some ""
  else if k = "Reproduced" then some ""
  else if k = "Best" then some ""
  else none

/-- Three complete authors carrying sequence numbers `[3, 1, 2]` in
source order. -/
def authors312 : List Author :=
  [mkAuthor "3" "Carol" "Zee", mkAuthor "1" "Ana" "Xu", mkAuthor "2" "Bo" "Yu"]

def samplePaper : Paper :=
  { event_tracking_number := some "ppopp23-p42", paper_title := some "Fast Caches"
  , authors := [mkAuthor "1" "Ana" "Lee"] }

def sampleToc : String → Option Paper :=
  fun k => if k = "ppopp23-p42" then some samplePaper else none

/-- A row carrying the `Unavailable` sentinel. -/
def skipRow : Row := fun k =>
  if k = "ppopp23-p#" then some "43"
  else if k = "Title" then some "Skipped Paper"
  else if k = "Available URL" then some "Unavailable"
  else none

def skipPaper : Paper :=
  { event_tracking_number := some "ppopp23-p43", paper_title := some "Skipped Paper"
  , authors := [] }

def skipToc : String → Option Paper :=
  fun k => if k = "ppopp23-p43" then some skipPaper else none

/-- The computed result of the worked-example row. -/
def sampleRun : RowResult := (processRow sampleToc sampleRow).toOption.getD ([], none)

/-- The computed result of the skipped row. -/
def skipRun : RowResult := (processRow skipToc skipRow).toOption.getD ([], none)

/-- A paper entry lacking its `paper_title` element. -/
def titlelessPaper : Paper :=
  { event_tracking_number := some "ppopp23-p43", paper_title := none, authors := [] }

def titlelessToc : String → Option Paper :=
  fun k => if k = "ppopp23-p43" then some titlelessPaper else none

/-- The relation between one author entry and its emitted block. -/
def authorBlockRel (a : Author) (b : XNode) : Prop :=
  ∃ s seq, a.sequence_no = some s ∧ pyInt (pyStrip s) = .ok seq ∧
    b.nodeName = some "mods:name" ∧
    b.attr "ID" = some ("artseq-" ++ toString (seq - 1))

end MG

namespace MG

/- # Theorems -/

/- ## Sanity checks of the DOI pattern translation -/

theorem doiSanity1 : parseDOIChars "10.1145/3456789".data =
    some ("10.1145".data, "3456789".data) := by decide

theorem doiSanity2 : parseDOIChars "https://doi.org/10.1145/zenodo.999".data =
    some ("10.1145".data, "zenodo.999".data) := by decide

theorem doiSanity3 : parseDOIChars "doi:10.1/x".data = some ("10.1".data, "x".data) := by
  decide

theorem doiSanity4 : parseDOIChars "10.1145/a/b".data = none := by decide

theorem doiSanity5 : parseDOIChars "10./x".data = none := by decide

theorem collapseSanity :
    collapseLines ["<a>".data, "  x".data, "</a>".data] = ["<a>x</a>".data] := by decide

/- ## C1: author block order and anchors -/

theorem authorBlock_nodeName (seq : Int) (f m l d e o aff : String) :
    (authorBlock seq f m l d e o aff).nodeName = some "mods:name" := rfl

theorem authorBlock_ID (seq : Int) (f m l d e o aff : String) :
    (authorBlock seq f m l d e o aff).attr "ID" =
      some ("artseq-" ++ toString (seq - 1)) := rfl

/-- Inversion of one author-loop iteration: on success the produced
block is a `mods:name` element whose anchor id is the parsed sequence
number minus one. -/
theorem processAuthor_ok {seen : List Int} {a : Author} {seq : Int} {blk : XNode}
    (h : processAuthor seen a = .ok (seq, blk)) :
    ∃ s, a.sequence_no = some s ∧ pyInt (pyStrip s) = .ok seq ∧
      blk.nodeName = some "mods:name" ∧
      blk.attr "ID" = some ("artseq-" ++ toString (seq - 1)) := by
  unfold processAuthor at h
  simp only [Bind.bind, Except.bind, unwrapE] at h
  cases hs : a.sequence_no
  case none => simp only [hs] at h; cases h
  case some s =>
  simp only [hs] at h
  refine ⟨s, rfl, ?_⟩
  cases hi : pyInt (pyStrip s)
  case error e => simp only [hi] at h; cases h
  case ok n =>
  simp only [hi] at h
  unfold pyAssert at h
  repeat' split at h
  all_goals cases h
  all_goals exact ⟨rfl, rfl, rfl⟩

/-- The author loop emits the blocks positionally: the i-th block comes
from the i-th author entry in source order. -/
theorem processAuthors_ok {seen : List Int} {authors : List Author} {blocks : List XNode}
    (h : processAuthors seen authors = .ok blocks) :
    List.Forall₂ authorBlockRel authors blocks := by
  induction authors generalizing seen blocks with
  | nil =>
    unfold processAuthors at h
    obtain rfl : [] = blocks := Except.ok.injEq .. ▸ h
    exact .nil
  | cons a rest ih =>
    unfold processAuthors at h
    simp only [Bind.bind] at h
    cases hpa : processAuthor seen a <;> rw [hpa] at h <;>
      simp only [Except.bind] at h
    case error e => cases h
    case ok v =>
    obtain ⟨seq, blk⟩ := v
    cases hrest : processAuthors (seq :: seen) rest <;> rw [hrest] at h <;>
      simp only [Except.bind, pure, Except.pure] at h
    case error e => cases h
    case ok blks =>
    obtain rfl : blk :: blks = blocks := Except.ok.injEq .. ▸ h
    obtain ⟨s, hs, hi, hn, hid⟩ := processAuthor_ok hpa
    exact .cons ⟨s, seq, hs, hi, hn, hid⟩ (ih hrest)

/-- C1 counterexample: for authors whose sequence numbers are `[3,1,2]`
in source order, the emitted `mods:name` blocks carry the anchor ids
`artseq-2, artseq-0, artseq-1` — *source* order, not the ascending
order `artseq-0, artseq-1, artseq-2` stated by the claim. -/
theorem C1_counterexample :
    (processAuthors [] authors312).map (fun bs => bs.map (XNode.attr "ID")) =
      .ok [some "artseq-2", some "artseq-0", some "artseq-1"] ∧
    [some "artseq-2", some "artseq-0", some "artseq-1"] ≠
      [some "artseq-0", some "artseq-1", some "artseq-2"] :=
  ⟨rfl, by decide⟩

/-- C1 amended: the metadata builder emits exactly one author block per
author entry, in the order the entries appear in the hierarchical
record (not sorted by sequence number), and each block is a `mods:name`
element whose anchor id equals its parsed sequence number minus one
(`artseq-{seq-1}`). -/
theorem C1_author_blocks {authors : List Author} {blocks : List XNode}
    (h : processAuthors [] authors = .ok blocks) :
    List.Forall₂ authorBlockRel authors blocks :=
  processAuthors_ok h

/-- C1 witness: the amended theorem evaluated on the `[3,1,2]` authors. -/
theorem C1_witness :
    List.Forall₂ authorBlockRel authors312
      ((processAuthors [] authors312).toOption.getD []) :=
  C1_author_blocks (by rfl)

/- ## C2: duplicate join keys -/

/-- C2 counterexample: two *distinct* paper entries carry the same
lookup key `ppopp23-p7`, yet the table build does not fail — the later
entry silently wins — and a whole row is processed against the
duplicated table without any fatal error.  This falsifies the claim
that the run aborts on duplicate keys. -/
theorem C2_counterexample :
    paperDup1 ≠ paperDup2 ∧
    tocPapersMap [paperDup1, paperDup2] "ppopp23-p7" = some paperDup2 ∧
    processRow (tocPapersMap [paperDup1, paperDup2]) dupRow =
      .ok ([.titleMatch "7" "Paper B", .skipInfo "7"], none) := by
  refine ⟨by decide, by decide, ?_⟩
  rfl

/-- C2 amended: when the hierarchical input contains two paper entries
with equal lookup keys, the program does *not* abort; the dict
comprehension silently resolves the join with a last-match heuristic —
appending one more paper overrides any earlier paper with the same
key. -/
theorem C2_amended (ps : List Paper) (p : Paper) (k : String) :
    tocPapersMap (ps ++ [p]) k =
      match p.event_tracking_number with
      | some etn => if k = pyStrip etn then some p else tocPapersMap ps k
      | none => tocPapersMap ps k := by
  simp only [tocPapersMap, List.foldl_append, List.foldl_cons, List.foldl_nil]
  cases p.event_tracking_number <;> rfl

/- ## C4: archive layout -/

theorem zipPath_eq (sfx : String) :
    zipPathFor sfx = "artifacts-metadata/artifacts_" ++ sfx ++ "_20230106.zip" := by
  apply String.ext
  simp only [zipPathFor, PATH_OUTPUT, String.data_append, List.append_assoc]
  have h2 : (pad0 4 DATE_ISSUED.1).data = ['2', '0', '2', '3'] := by decide
  have h3 : (pad0 2 DATE_ISSUED.2.1).data = ['0', '1'] := by decide
  have h4 : (pad0 2 DATE_ISSUED.2.2).data = ['0', '6'] := by decide
  simp only [h2, h3, h4, List.cons_append, List.nil_append]

/-- C4: for a non-skipped artifact the archive path is
`{outputDir}/artifacts_{suffix}_{YYYYMMDD}.zip` with the date taken from
the configured issue date, and the archive receives exactly four entries
in fixed order — the manifest, the two directory entries, and the
metadata document — every entry dated with the issue date at zero
time-of-day and marked POSIX (`create_system = 3`); directory entries
carry POSIX mode 0755, an explicit zero CRC and no content, file entries
carry POSIX mode 0644.  The entry list is a pure function of the suffix
and the two documents, so unchanged inputs and an unchanged issue date
reproduce it exactly. -/
theorem C4_zip_layout (sfx : String) (manifest zenodo : XDoc) :
    zipPathFor sfx = "artifacts-metadata/artifacts_" ++ sfx ++ "_20230106.zip" ∧
    (zipEntriesFor sfx manifest zenodo).map ZipEntry.path =
      ["manifest.xml", sfx ++ "/", sfx ++ "/meta/", sfx ++ "/meta/" ++ sfx ++ ".xml"] ∧
    (zipEntriesFor sfx manifest zenodo).map ZipEntry.content =
      [some manifest, none, none, some zenodo] ∧
    ∀ e ∈ zipEntriesFor sfx manifest zenodo,
      e.date = (2023, 1, 6, 0, 0, 0) ∧ e.create_system = 3 ∧
      (e.content = none → (e.external_attr >>> 16) &&& 0o7777 = 0o755 ∧ e.crc = some 0) ∧
      (e.content.isSome → (e.external_attr >>> 16) &&& 0o7777 = 0o644 ∧ e.crc = none) := by
  refine ⟨zipPath_eq sfx, by simp [zipEntriesFor], by simp [zipEntriesFor], ?_⟩
  intro e he
  simp only [zipEntriesFor, List.mem_cons, List.not_mem_nil, or_false] at he
  have hfile : (0o644 <<< 16) >>> 16 &&& 0o7777 = 0o644 := by decide
  have hdir : ((0o40755 <<< 16) ||| 0x10) >>> 16 &&& 0o7777 = 0o755 := by decide
  rcases he with h | h | h | h <;> subst h
  · exact ⟨rfl, rfl, fun hc => by simp at hc, fun _ => ⟨hfile, rfl⟩⟩
  · exact ⟨rfl, rfl, fun _ => ⟨hdir, rfl⟩, fun hc => by simp at hc⟩
  · exact ⟨rfl, rfl, fun _ => ⟨hdir, rfl⟩, fun hc => by simp at hc⟩
  · exact ⟨rfl, rfl, fun hc => by simp at hc, fun _ => ⟨hfile, rfl⟩⟩

/-- C4 witness: the layout theorem applied to the spec's worked example
(suffix `zenodo.999`), instantiated at the first directory entry. -/
theorem C4_witness :
    (zipEntriesFor "zenodo.999" ⟨none, []⟩ ⟨none, []⟩).map ZipEntry.path =
      ["manifest.xml", "zenodo.999/", "zenodo.999/meta/", "zenodo.999/meta/zenodo.999.xml"] ∧
    zipPathFor "zenodo.999" = "artifacts-metadata/artifacts_zenodo.999_20230106.zip" ∧
    (({ path := "zenodo.999" ++ "/", date := zipDate, create_system := 3
      , external_attr := (0o40755 <<< 16) ||| 0x10, crc := some 0
      , content := none } : ZipEntry).external_attr >>> 16) &&& 0o7777 = 0o755 :=
  have h := C4_zip_layout "zenodo.999" ⟨none, []⟩ ⟨none, []⟩
  ⟨h.2.1, h.1, ((h.2.2.2 _ (List.Mem.tail _ (List.Mem.head _))).2.2.1 rfl).1⟩

/- ## C5: badge topics -/

theorem badgeTopic_authority (e : String × String × String) :
    (badgeTopic e).attr "authority" = some e.2.1 := rfl

theorem contains_eq_decide_mem {α : Type} [BEq α] [LawfulBEq α] [DecidableEq α]
    (l : List α) (a : α) : l.contains a = decide (a ∈ l) := by
  by_cases h : a ∈ l <;> simp [List.contains, h]

/-- In a list whose authority strings are pairwise distinct, filtering
and counting by one member's authority yields `1` or `0` according to
whether the member passes the filter. -/
theorem countP_key (p : String × String × String → Bool) :
    ∀ (l : List (String × String × String)),
      l.Pairwise (fun x y => x.2.1 ≠ y.2.1) → ∀ e ∈ l,
      (l.filter p).countP (fun x => decide (x.2.1 = e.2.1)) = if p e then 1 else 0 := by
  intro l
  induction l with
  | nil => intro _ e he; cases he
  | cons x l ih =>
    intro hp e he
    obtain ⟨hx, hl'⟩ := List.pairwise_cons.mp hp
    have hzero : ∀ (m : List (String × String × String)),
        (∀ y ∈ m, y.2.1 ≠ e.2.1) → m.countP (fun y => decide (y.2.1 = e.2.1)) = 0 := by
      intro m hm
      exact List.countP_eq_zero.mpr (fun y hy => by simp [hm y hy])
    rcases List.mem_cons.mp he with rfl | he'
    · rw [List.filter_cons]
      have htail : (l.filter p).countP (fun y => decide (y.2.1 = e.2.1)) = 0 :=
        hzero _ (fun y hy => (hx y (List.mem_of_mem_filter hy)).symm)
      by_cases hpx : p e
      · simp only [if_pos hpx, List.countP_cons, htail]
        simp
      · simp only [if_neg hpx]
        exact htail
    · have hxe : x.2.1 ≠ e.2.1 := hx e he'
      rw [List.filter_cons]
      by_cases hpx : p x
      · simp only [if_pos hpx, List.countP_cons, ih hl' e he']
        simp [hxe]
      · simp only [if_neg hpx]
        exact ih hl' e he'

/-- C5: the badges block is a pure function of badge-set membership —
(i) it only depends on which tokens are in the set, not their order or
multiplicity; (ii) its topic leaves are a sublist of the fixed
vocabulary table's leaves, hence in table order; (iii) each table entry
contributes exactly one leaf (carrying the table's authority string)
when its token is in the set and none otherwise; (iv) every emitted
leaf comes from a table entry whose token is in the set, so tokens
outside the table never produce a leaf. -/
theorem C5_badge_topics :
    (∀ b₁ b₂ : List String, (∀ x, x ∈ b₁ ↔ x ∈ b₂) → badgeTopics b₁ = badgeTopics b₂) ∧
    (∀ b : List String, (badgeTopics b).Sublist (badgeTable.map badgeTopic)) ∧
    (∀ b : List String, ∀ e ∈ badgeTable,
      (badgeTopics b).countP (fun t => t.attr "authority" == some e.2.1) =
        if e.1 ∈ b then 1 else 0) ∧
    (∀ b : List String, ∀ t ∈ badgeTopics b,
      ∃ e ∈ badgeTable, e.1 ∈ b ∧ t = badgeTopic e) := by
  refine ⟨?_, ?_, ?_, ?_⟩
  · intro b₁ b₂ hb
    unfold badgeTopics
    congr 1
    apply List.filter_congr
    intro e _
    rw [contains_eq_decide_mem, contains_eq_decide_mem]
    simp [hb e.1]
  · intro b
    exact (List.filter_sublist _).map _
  · intro b e he
    unfold badgeTopics
    rw [List.countP_map]
    rw [List.countP_congr (q := fun x => decide (x.2.1 = e.2.1))
      (fun x _ => by simp [Function.comp, badgeTopic_authority])]
    rw [countP_key _ badgeTable (by decide) e he]
    rw [contains_eq_decide_mem]
    by_cases hm : e.1 ∈ b <;> simp [hm]
  · intro b t ht
    unfold badgeTopics at ht
    simp only [List.mem_map, List.mem_filter] at ht
    obtain ⟨e, ⟨he, hb⟩, rfl⟩ := ht
    rw [contains_eq_decide_mem, decide_eq_true_eq] at hb
    exact ⟨e, he, hb, rfl⟩

/-- C5 witness: the theorem instantiated on the badge set
`{available, functional}` of the worked example, checked on the first
vocabulary entry. -/
theorem C5_witness :
    badgeTopics ["#acm:artifacts-available", "#acm:artifacts-functional"] =
      badgeTopics ["#acm:artifacts-available", "#acm:artifacts-functional"] ∧
    (badgeTopics ["#acm:artifacts-available", "#acm:artifacts-functional"]).Sublist
      (badgeTable.map badgeTopic) ∧
    (badgeTopics ["#acm:artifacts-available", "#acm:artifacts-functional"]).countP
        (fun t => t.attr "authority" == some "artifacts_available_v101") = 1 ∧
    ∃ e ∈ badgeTable, e.1 ∈ ["#acm:artifacts-available", "#acm:artifacts-functional"] ∧
      badgeTopic ("#acm:artifacts-available", "artifacts_available_v101",
        "Artifacts Available") = badgeTopic e := by
  have h := C5_badge_topics
  refine ⟨h.1 _ _ (fun x => Iff.rfl), h.2.1 _, ?_, ?_⟩
  · have h3 := h.2.2.1 ["#acm:artifacts-available", "#acm:artifacts-functional"]
      ("#acm:artifacts-available", "artifacts_available_v101", "Artifacts Available")
      (by decide)
    rw [h3]
    decide
  · exact h.2.2.2 _ (badgeTopic ("#acm:artifacts-available", "artifacts_available_v101",
      "Artifacts Available")) (List.Mem.head _)

/- ## C3 and C6: the DOI pattern -/

/-- A dot/digit run followed by a non-dot/digit head splits exactly. -/
theorem takeWhile_middle (p : Char → Bool) (xs : List Char) (y : Char) (ys : List Char)
    (hxs : ∀ x ∈ xs, p x = true) (hy : p y = false) :
    (xs ++ y :: ys).takeWhile p = xs ∧ (xs ++ y :: ys).dropWhile p = y :: ys := by
  induction xs with
  | nil => simp [List.takeWhile_cons, List.dropWhile_cons, hy]
  | cons x xs ih =>
    have hx : p x = true := hxs x (List.mem_cons_self x xs)
    have ih' := ih (fun z hz => hxs z (List.mem_cons_of_mem x hz))
    simp [List.takeWhile_cons, List.dropWhile_cons, hx, ih'.1, ih'.2]

/-- Soundness of the core pattern: a successful match decomposes the
input as prefix ++ `/` ++ suffix with the stated shapes. -/
theorem parseCore_eq_some {t p s : List Char} (h : parseCore t = some (p, s)) :
    ∃ c run, p = '1' :: '0' :: c :: run ∧ c ≠ '\n' ∧ run ≠ [] ∧
      (∀ x ∈ run, isDotDigit x = true) ∧ s ≠ [] ∧ '/' ∉ s ∧
      t = p ++ '/' :: s := by
  unfold parseCore at h
  split at h
  case h_2 => cases h
  case h_1 c rest =>
  split at h
  case isTrue => cases h
  case isFalse hc =>
  split at h
  case h_2 => cases h
  case h_1 sfx hdw =>
  split at h
  case isTrue => cases h
  case isFalse hrun =>
  split at h
  case isTrue => cases h
  case isFalse hsfx =>
  cases h
  simp only [Bool.or_eq_true, not_or, Bool.not_eq_true] at hsfx
  refine ⟨c, rest.takeWhile isDotDigit, rfl, ?_, ?_, ?_, ?_, ?_, ?_⟩
  · simpa using hc
  · simpa [List.isEmpty_iff] using hrun
  · exact fun x hx => List.all_eq_true.mp List.all_takeWhile x hx
  · simpa using hsfx.1
  · have h2 := hsfx.2
    rw [contains_eq_decide_mem] at h2
    simpa using h2
  · have hsplit : rest.takeWhile isDotDigit ++ rest.dropWhile isDotDigit = rest :=
      List.takeWhile_append_dropWhile ..
    rw [hdw] at hsplit
    conv_lhs => rw [← hsplit]
    simp

/-- Completeness of the core pattern on shaped inputs. -/
theorem parseCore_complete (c : Char) (run s : List Char)
    (hc : c ≠ '\n') (hrun : run ≠ []) (hall : ∀ x ∈ run, isDotDigit x = true)
    (hs : s ≠ []) (hsl : '/' ∉ s) :
    parseCore ('1' :: '0' :: c :: (run ++ '/' :: s)) = some ('1' :: '0' :: c :: run, s) := by
  unfold parseCore
  obtain ⟨htw, hdw⟩ := takeWhile_middle isDotDigit run '/' s hall (by decide)
  have hcb : (c == '\n') = false := by simpa using hc
  have hrunb : run.isEmpty = false := by simpa using hrun
  have hsb : s.isEmpty = false := by simpa using hs
  have hslb : s.contains '/' = false := by
    rw [contains_eq_decide_mem]; simpa using hsl
  simp [hcb, htw, hdw, hrunb, hsb, hslb, hsl]

/-- A successful alternation branch on its own spelling. -/
theorem tryStrip_append (pat t : List Char) : tryStrip pat (pat ++ t) = some t := by
  unfold tryStrip
  rw [if_pos (List.isPrefixOf_iff_prefix.mpr ⟨t, rfl⟩), List.drop_left]

/-- A branch fails when no decomposition exists. -/
theorem tryStrip_ne {pat s : List Char} (h : ∀ u, s ≠ pat ++ u) :
    tryStrip pat s = none := by
  unfold tryStrip
  rw [if_neg]
  intro hp
  obtain ⟨u, hu⟩ := List.isPrefixOf_iff_prefix.mp hp
  exact h u hu.symm

theorem stripScheme_ten (t : List Char) : stripScheme ('1' :: t) = '1' :: t := by
  have h1 : tryStrip schDoi ('1' :: t) = none :=
    tryStrip_ne (fun u hu => by simp [schDoi] at hu)
  have h2 : tryStrip schHttpsDx ('1' :: t) = none :=
    tryStrip_ne (fun u hu => by simp [schHttpsDx] at hu)
  have h3 : tryStrip schHttps ('1' :: t) = none :=
    tryStrip_ne (fun u hu => by simp [schHttps] at hu)
  have h4 : tryStrip schHttpDx ('1' :: t) = none :=
    tryStrip_ne (fun u hu => by simp [schHttpDx] at hu)
  have h5 : tryStrip schHttp ('1' :: t) = none :=
    tryStrip_ne (fun u hu => by simp [schHttp] at hu)
  simp only [stripScheme, h1, h2, h3, h4, h5]

theorem stripScheme_doi (t : List Char) : stripScheme (schDoi ++ t) = t := by
  simp only [stripScheme, tryStrip_append]

theorem stripScheme_httpsDx (t : List Char) : stripScheme (schHttpsDx ++ t) = t := by
  have h1 : tryStrip schDoi (schHttpsDx ++ t) = none :=
    tryStrip_ne (fun u hu => by simp [schDoi, schHttpsDx] at hu)
  simp only [stripScheme, h1, tryStrip_append]

theorem stripScheme_https (t : List Char) : stripScheme (schHttps ++ t) = t := by
  have h1 : tryStrip schDoi (schHttps ++ t) = none :=
    tryStrip_ne (fun u hu => by simp [schDoi, schHttps] at hu)
  have h2 : tryStrip schHttpsDx (schHttps ++ t) = none :=
    tryStrip_ne (fun u hu => by simp [schHttpsDx, schHttps] at hu)
  simp only [stripScheme, h1, h2, tryStrip_append]

theorem stripScheme_httpDx (t : List Char) : stripScheme (schHttpDx ++ t) = t := by
  have h1 : tryStrip schDoi (schHttpDx ++ t) = none :=
    tryStrip_ne (fun u hu => by simp [schDoi, schHttpDx] at hu)
  have h2 : tryStrip schHttpsDx (schHttpDx ++ t) = none :=
    tryStrip_ne (fun u hu => by simp [schHttpsDx, schHttpDx] at hu)
  have h3 : tryStrip schHttps (schHttpDx ++ t) = none :=
    tryStrip_ne (fun u hu => by simp [schHttps, schHttpDx] at hu)
  simp only [stripScheme, h1, h2, h3, tryStrip_append]

theorem stripScheme_http (t : List Char) : stripScheme (schHttp ++ t) = t := by
  have h1 : tryStrip schDoi (schHttp ++ t) = none :=
    tryStrip_ne (fun u hu => by simp [schDoi, schHttp] at hu)
  have h2 : tryStrip schHttpsDx (schHttp ++ t) = none :=
    tryStrip_ne (fun u hu => by simp [schHttpsDx, schHttp] at hu)
  have h3 : tryStrip schHttps (schHttp ++ t) = none :=
    tryStrip_ne (fun u hu => by simp [schHttps, schHttp] at hu)
  have h4 : tryStrip schHttpDx (schHttp ++ t) = none :=
    tryStrip_ne (fun u hu => by simp [schHttpDx, schHttp] at hu)
  simp only [stripScheme, h1, h2, h3, h4, tryStrip_append]

/-- A successful `tryStrip` really decomposes the input. -/
theorem tryStrip_eq_some {pat s r : List Char} (h : tryStrip pat s = some r) :
    s = pat ++ r := by
  unfold tryStrip at h
  split at h
  case isTrue hp =>
    cases h
    obtain ⟨t, rfl⟩ := List.isPrefixOf_iff_prefix.mp hp
    rw [List.drop_left]
  case isFalse => cases h

/-- Every input splits as one of the six schemes followed by the
stripped remainder. -/
theorem stripScheme_decomp (s : List Char) :
    ∃ sch ∈ doiSchemes, s = sch ++ stripScheme s := by
  unfold stripScheme
  repeat' split
  all_goals first
    | exact ⟨[], by decide, rfl⟩
    | exact ⟨schDoi, by decide, tryStrip_eq_some (by assumption)⟩
    | exact ⟨schHttpsDx, by decide, tryStrip_eq_some (by assumption)⟩
    | exact ⟨schHttps, by decide, tryStrip_eq_some (by assumption)⟩
    | exact ⟨schHttpDx, by decide, tryStrip_eq_some (by assumption)⟩
    | exact ⟨schHttp, by decide, tryStrip_eq_some (by assumption)⟩

/-- C3 counterexample: the claim says the prefix segment must be the
literal `10.` followed by digits/dots, but the `.` in the source
pattern is an unescaped wildcard: `10a1/b` is accepted by the code
(prefix `10a1`) while the claim's characterization rejects it. -/
theorem C3_counterexample :
    (parseDOIChars "10a1/b".data).isSome = true ∧
    claimAccept "10a1/b".data = false := by decide

/-- C3 amended: DOI construction succeeds exactly for an optional
`doi:` / `http(s)://(dx.)doi.org/` scheme followed by `10`, one
arbitrary non-newline character (the unescaped dot of the pattern),
one or more dot/digit characters, a literal `/`, and a non-empty
suffix containing no `/`, anchored at the end of the string; every
other input makes the constructor fail with a `ValueError` naming the
offending string. -/
theorem C3_doi_pattern :
    (∀ s : List Char, (parseDOIChars s).isSome ↔ DOIShape s) ∧
    (∀ s : String, parseDOIChars s.data = none →
      doiParseE s = .error (.valueErr (pyRepr s ++ " is not a valid DOI URL"))) := by
  constructor
  · intro s
    constructor
    · intro h
      obtain ⟨⟨p, sfx⟩, hp⟩ := Option.isSome_iff_exists.mp h
      obtain ⟨c, run, rfl, hc, hrun, hall, hs, hsl, hsplit⟩ := parseCore_eq_some hp
      obtain ⟨sch, hsch, hdecomp⟩ := stripScheme_decomp s
      refine ⟨sch, c, run, sfx, hsch, ?_, hc, hrun, hall, hs, hsl⟩
      rw [hdecomp, hsplit]
      simp
    · rintro ⟨sch, c, run, sfx, hsch, rfl, hc, hrun, hall, hs, hsl⟩
      have hcore := parseCore_complete c run sfx hc hrun hall hs hsl
      unfold parseDOIChars
      fin_cases hsch
      · rw [List.nil_append, stripScheme_ten, hcore]; rfl
      · rw [stripScheme_doi, hcore]; rfl
      · rw [stripScheme_httpsDx, hcore]; rfl
      · rw [stripScheme_https, hcore]; rfl
      · rw [stripScheme_httpDx, hcore]; rfl
      · rw [stripScheme_http, hcore]; rfl
  · intro s hp
    unfold doiParseE
    rw [hp]

/-- C3 witness: the amended characterization applied to `10.1/x`, and
the error side applied to the invalid string `nope`. -/
theorem C3_witness :
    DOIShape "10.1/x".data ∧
    doiParseE "nope" = .error (.valueErr (pyRepr "nope" ++ " is not a valid DOI URL")) :=
  ⟨(C3_doi_pattern.1 _).mp (by decide), C3_doi_pattern.2 "nope" (by decide)⟩

/-- C6: parse∘render round-trips — re-parsing the canonical
`prefix/suffix` rendering, or the canonical `https://doi.org/…` URL
rendering, of any accepted input reproduces the same pair. -/
theorem C6_roundtrip {x p sfx : List Char}
    (h : parseDOIChars x = some (p, sfx)) :
    parseDOIChars (doiFull p sfx) = some (p, sfx) ∧
    parseDOIChars (doiUrl p sfx) = some (p, sfx) := by
  obtain ⟨c, run, rfl, hc, hrun, hall, hs, hsl, _⟩ := parseCore_eq_some h
  have hcore := parseCore_complete c run sfx hc hrun hall hs hsl
  constructor
  · unfold parseDOIChars doiFull
    simp only [List.cons_append]
    rw [stripScheme_ten]
    exact hcore
  · unfold parseDOIChars doiUrl
    rw [List.append_assoc, stripScheme_https]
    simp only [List.cons_append]
    exact hcore

/-- C6 witness: the round-trip theorem at `10.1145/3456789`. -/
theorem C6_witness :
    parseDOIChars (doiFull "10.1145".data "3456789".data) =
      some ("10.1145".data, "3456789".data) ∧
    parseDOIChars (doiUrl "10.1145".data "3456789".data) =
      some ("10.1145".data, "3456789".data) :=
  @C6_roundtrip "10.1145/3456789".data "10.1145".data "3456789".data (by decide)

/- ## C7: idempotence of the collapse pass -/

/-- One-step unfolding of the scan on at least two lines. -/
theorem collapse_cons₂ (l1 l2 : Line) (rest2 : List Line) :
    collapseLines (l1 :: l2 :: rest2) =
      match isOpenLine l1 with
      | none => l1 :: collapseLines (l2 :: rest2)
      | some k =>
        if isTextLine k l2 then
          match rest2 with
          | l3 :: rest3 =>
            if isCloseLine k l3 then merge3 l1 k l2 l3 :: collapseLines rest3
            else l1 :: collapseLines (l2 :: l3 :: rest3)
          | [] => l1 :: collapseLines [l2]
        else if isCloseLine k l2 then merge2 l1 k l2 :: collapseLines rest2
        else l1 :: collapseLines (l2 :: rest2) := by
  rw [collapseLines.eq_def]

/-- One-step unfolding of the no-rematch condition on at least two
lines. -/
theorem noRematch_cons₂ (l1 l2 : Line) (rest2 : List Line) :
    noRematch (l1 :: l2 :: rest2) =
      match isOpenLine l1 with
      | none => noRematch (l2 :: rest2)
      | some k =>
        if isTextLine k l2 then
          match rest2 with
          | l3 :: rest3 =>
            if isCloseLine k l3 then !rematchRisk k rest3 && noRematch rest3
            else noRematch (l2 :: l3 :: rest3)
          | [] => noRematch [l2]
        else if isCloseLine k l2 then !rematchRisk k rest2 && noRematch rest2
        else noRematch (l2 :: rest2) := by
  rw [noRematch.eq_def]

theorem bool_eq_false {b : Bool} (h : ¬b = true) : b = false := by
  cases b
  · rfl
  · exact absurd rfl h

theorem leadingSpaces_append (k : Nat) {c : Char} (hc : c ≠ ' ') (t : List Char) :
    leadingSpaces (List.replicate k ' ' ++ c :: t) = k := by
  induction k with
  | zero => simp [leadingSpaces, hc]
  | succ n ih => simp [leadingSpaces, List.replicate_succ, ih]

theorem take_leading (l : Line) :
    List.replicate (leadingSpaces l) ' ' ++ l.drop (leadingSpaces l) = l := by
  induction l with
  | nil => rfl
  | cons c t ih =>
    by_cases hc : c = ' '
    · subst hc
      simp only [leadingSpaces, eq_self_iff_true, if_true, List.replicate_succ,
        List.cons_append, List.drop_succ_cons]
      rw [ih]
    · simp [leadingSpaces, hc]

/-- Shape of an opening line: exactly `k` spaces, `<`, one character
that is neither `/` nor a newline, then anything. -/
theorem isOpenLine_eq_some {l : Line} {k : Nat} :
    isOpenLine l = some k ↔
      ∃ c rest, l = List.replicate k ' ' ++ '<' :: c :: rest ∧ c ≠ '/' ∧ c ≠ '\n' := by
  constructor
  · intro h
    unfold isOpenLine at h
    split at h
    case h_2 => cases h
    case h_1 c rest hdrop =>
    split at h
    case isTrue => cases h
    case isFalse hcond =>
    cases h
    refine ⟨c, rest, ?_, ?_, ?_⟩
    · conv_lhs => rw [← take_leading l]
      rw [hdrop]
    · intro hc; subst hc; simp at hcond
    · intro hc; subst hc; simp at hcond
  · rintro ⟨c, rest, rfl, hc1, hc2⟩
    unfold isOpenLine
    rw [leadingSpaces_append k (by decide), List.drop_left' (List.length_replicate ..)]
    simp [hc1, hc2]

/-- Shape of a closing line: exactly `k` spaces then `</`. -/
theorem isCloseLine_eq_true {k : Nat} {l : Line} :
    isCloseLine k l = true ↔ ∃ rest, l = List.replicate k ' ' ++ '<' :: '/' :: rest := by
  constructor
  · intro h
    unfold isCloseLine at h
    rw [Bool.and_eq_true] at h
    obtain ⟨h1, h2⟩ := h
    rw [decide_eq_true_eq] at h1
    split at h2
    case h_1 rest hdrop =>
      refine ⟨rest, ?_⟩
      conv_lhs => rw [← List.take_append_drop k l]
      rw [h1, hdrop]
    case h_2 => cases h2
  · rintro ⟨rest, rfl⟩
    unfold isCloseLine
    rw [List.take_left' (List.length_replicate ..), List.drop_left' (List.length_replicate ..)]
    simp

/-- Shape of a text line: at least `k + 2` spaces, then no `<`, `>` or
newline. -/
theorem isTextLine_eq_true {k : Nat} {l : Line} :
    isTextLine k l = true ↔
      ∃ t, l = List.replicate (k + 2) ' ' ++ t ∧
        ∀ c ∈ t, c ≠ '<' ∧ c ≠ '>' ∧ c ≠ '\n' := by
  unfold isTextLine
  rw [Bool.and_eq_true, decide_eq_true_eq, List.all_eq_true]
  constructor
  · rintro ⟨h1, h2⟩
    refine ⟨l.drop (k + 2), ?_, ?_⟩
    · conv_lhs => rw [← List.take_append_drop (k + 2) l]
      rw [h1]
    · intro c hc
      have h3 := h2 c hc
      simp only [Bool.not_eq_true', Bool.or_eq_false_iff] at h3
      exact ⟨by simpa using h3.1.1, by simpa using h3.1.2, by simpa using h3.2⟩
  · rintro ⟨t, rfl, ht⟩
    refine ⟨List.take_left' (List.length_replicate ..), ?_⟩
    rw [List.drop_left' (List.length_replicate ..)]
    intro c hc
    have h3 := ht c hc
    simp [h3.1, h3.2.1, h3.2.2]

theorem open_mem_lt {l : Line} {k : Nat} (h : isOpenLine l = some k) : '<' ∈ l := by
  obtain ⟨c, rest, rfl, -, -⟩ := isOpenLine_eq_some.mp h
  exact List.mem_append_right _ (List.mem_cons_self ..)

theorem close_mem_lt {l : Line} {k : Nat} (h : isCloseLine k l = true) : '<' ∈ l := by
  obtain ⟨rest, rfl⟩ := isCloseLine_eq_true.mp h
  exact List.mem_append_right _ (List.mem_cons_self ..)

theorem text_not_mem_lt {l : Line} {k : Nat} (h : isTextLine k l = true) : '<' ∉ l := by
  obtain ⟨t, rfl, ht⟩ := isTextLine_eq_true.mp h
  intro hm
  rcases List.mem_append.mp hm with hm | hm
  · exact absurd (List.eq_of_mem_replicate hm) (by decide)
  · exact (ht _ hm).1 rfl

theorem text_not_open {l : Line} {k : Nat} (h : isTextLine k l = true) :
    isOpenLine l = none := by
  cases hop : isOpenLine l with
  | none => rfl
  | some j => exact absurd (open_mem_lt hop) (text_not_mem_lt h)

theorem text_not_close {l : Line} {k j : Nat} (h : isTextLine k l = true) :
    isCloseLine j l = false := by
  cases hc : isCloseLine j l with
  | false => rfl
  | true => exact absurd (close_mem_lt hc) (text_not_mem_lt h)

theorem open_not_text {l : Line} {k j : Nat} (h : isOpenLine l = some k) :
    isTextLine j l = false := by
  cases ht : isTextLine j l with
  | false => rfl
  | true => exact absurd (open_mem_lt h) (text_not_mem_lt ht)

/-- Two space-runs followed by `<` markers can only be equal position
for position. -/
theorem repl_marker : ∀ {k j : Nat} {x y : List Char},
    List.replicate k ' ' ++ '<' :: x = List.replicate j ' ' ++ '<' :: y → k = j ∧ x = y := by
  intro k
  induction k with
  | zero =>
    intro j x y h
    cases j with
    | zero => simpa using h
    | succ m => simp [List.replicate_succ] at h
  | succ n ih =>
    intro j x y h
    cases j with
    | zero => simp [List.replicate_succ] at h
    | succ m =>
      simp only [List.replicate_succ, List.cons_append, List.cons.injEq, true_and] at h
      obtain ⟨h3, h4⟩ := ih h
      exact ⟨by omega, h4⟩

theorem open_not_close {l : Line} {k j : Nat} (h : isOpenLine l = some k) :
    isCloseLine j l = false := by
  cases hcl : isCloseLine j l with
  | false => rfl
  | true =>
    obtain ⟨c, rest, hl, hc1, -⟩ := isOpenLine_eq_some.mp h
    obtain ⟨rest', hl'⟩ := isCloseLine_eq_true.mp hcl
    rw [hl] at hl'
    obtain ⟨-, h2⟩ := repl_marker hl'
    injection h2 with ha hb
    exact absurd ha hc1

/-- Appending anything to an opening line keeps it an opening line with
the same indent (this is what the merged replacement line is). -/
theorem isOpen_append {l : Line} {k : Nat} (h : isOpenLine l = some k) (s : List Char) :
    isOpenLine (l ++ s) = some k := by
  obtain ⟨c, rest, rfl, hc1, hc2⟩ := isOpenLine_eq_some.mp h
  refine isOpenLine_eq_some.mpr ⟨c, rest ++ s, ?_, hc1, hc2⟩
  simp

theorem collapse_cons_none {x : Line} (hop : isOpenLine x = none) (xs : List Line) :
    collapseLines (x :: xs) = x :: collapseLines xs := by
  cases xs with
  | nil => rfl
  | cons y ys => simp only [collapseLines, hop]

/-- When the lines after an opening line cannot combine with it, the
scan just moves on. -/
theorem collapse_cons_no_match {x : Line} {k : Nat} (hop : isOpenLine x = some k)
    (xs : List Line) (hrisk : rematchRisk k xs = false) :
    collapseLines (x :: xs) = x :: collapseLines xs := by
  cases xs with
  | nil => rfl
  | cons y ys =>
    simp only [rematchRisk, Bool.or_eq_false_iff] at hrisk
    obtain ⟨hcy, hty⟩ := hrisk
    cases ht : isTextLine k y with
    | false => rw [collapse_cons₂]; simp only [eq_self_iff_true, if_true, Bool.false_eq_true, if_false, hop, ht, hcy]
    | true =>
      rw [ht, Bool.true_and] at hty
      cases ys with
      | nil => rw [collapse_cons₂]; simp only [eq_self_iff_true, if_true, Bool.false_eq_true, if_false, hop, ht]
      | cons z zs => rw [collapse_cons₂]; simp only [eq_self_iff_true, if_true, Bool.false_eq_true, if_false, hop, ht, show isCloseLine k z = false from hty]

/-- The first output line is the first input line unchanged, or a
merged line, which is an opening line. -/
theorem collapse_head (x : Line) (xs : List Line) :
    ∃ y ys, collapseLines (x :: xs) = y :: ys ∧
      (y = x ∨ ∃ k, isOpenLine y = some k) := by
  cases xs with
  | nil => exact ⟨x, [], rfl, .inl rfl⟩
  | cons l2 rest2 =>
    cases hop : isOpenLine x with
    | none =>
      exact ⟨x, collapseLines (l2 :: rest2), by rw [collapse_cons₂]; simp only [eq_self_iff_true, if_true, Bool.false_eq_true, if_false, hop], .inl rfl⟩
    | some k =>
      cases ht : isTextLine k l2 with
      | true =>
        cases rest2 with
        | nil => exact ⟨x, collapseLines [l2], by rw [collapse_cons₂]; simp only [eq_self_iff_true, if_true, Bool.false_eq_true, if_false, hop, ht], .inl rfl⟩
        | cons l3 rest3 =>
          cases hc : isCloseLine k l3 with
          | true =>
            exact ⟨merge3 x k l2 l3, collapseLines rest3,
              by rw [collapse_cons₂]; simp only [eq_self_iff_true, if_true, Bool.false_eq_true, if_false, hop, ht, hc],
              .inr ⟨k, isOpen_append (isOpen_append hop _) _⟩⟩
          | false =>
            exact ⟨x, collapseLines (l2 :: l3 :: rest3),
              by rw [collapse_cons₂]; simp only [eq_self_iff_true, if_true, Bool.false_eq_true, if_false, hop, ht, hc], .inl rfl⟩
      | false =>
        cases hc : isCloseLine k l2 with
        | true =>
          exact ⟨merge2 x k l2, collapseLines rest2,
            by rw [collapse_cons₂]; simp only [eq_self_iff_true, if_true, Bool.false_eq_true, if_false, hop, ht, hc], .inr ⟨k, isOpen_append hop _⟩⟩
        | false =>
          exact ⟨x, collapseLines (l2 :: rest2),
            by rw [collapse_cons₂]; simp only [eq_self_iff_true, if_true, Bool.false_eq_true, if_false, hop, ht, hc], .inl rfl⟩

/-- Collapsing cannot introduce a new rematch hazard: merged lines are
opening lines, never closing or text lines. -/
theorem rematchRisk_collapse {k : Nat} {rs : List Line} (h : rematchRisk k rs = false) :
    rematchRisk k (collapseLines rs) = false := by
  cases rs with
  | nil => rfl
  | cons x rs' =>
    simp only [rematchRisk, Bool.or_eq_false_iff] at h
    obtain ⟨hcx, htx⟩ := h
    obtain ⟨y, ys, hcol, hy⟩ := collapse_head x rs'
    rw [hcol]
    simp only [rematchRisk, Bool.or_eq_false_iff]
    rcases hy with rfl | ⟨k', hopy⟩
    · refine ⟨hcx, ?_⟩
      cases ht : isTextLine k y with
      | false => simp
      | true =>
        rw [ht, Bool.true_and] at htx
        rw [Bool.true_and]
        have hnone : isOpenLine y = none := text_not_open ht
        have hstep : collapseLines (y :: rs') = y :: collapseLines rs' :=
          collapse_cons_none hnone _
        rw [hcol] at hstep
        injection hstep with h1 h2
        rw [h2]
        cases rs' with
        | nil => rfl
        | cons z zs =>
          obtain ⟨y2, ys2, hcol2, hy2⟩ := collapse_head z zs
          rw [hcol2]
          rcases hy2 with rfl | ⟨k2, hop2⟩
          · exact htx
          · exact open_not_close hop2
    · exact ⟨open_not_close hopy, by simp [open_not_text hopy]⟩

/-- C7 amended: the collapse pass is idempotent on every input in which
no collapsed match is immediately followed by a closing-tag line at the
match's indent (or by a text line at indent+2 and then such a closing
line) — in particular on properly nested pretty-printer output, where
the line after an element never closes a sibling at the same depth.  In
general the pass is *not* idempotent (see the counterexample). -/
theorem C7_collapse_idem (ls : List Line) (hnr : noRematch ls = true) :
    collapseLines (collapseLines ls) = collapseLines ls := by
  induction ls using collapseLines.induct with
  | case1 => rfl
  | case2 l1 => rfl
  | case3 l1 l2 rest2 hop ih =>
    have hnr' : noRematch (l2 :: rest2) = true := by
      rw [noRematch_cons₂, hop] at hnr
      exact hnr
    rw [collapse_cons_none hop, collapse_cons_none hop, ih hnr']
  | case4 l1 l2 k hop ht l3 rest3 hc ih =>
    have h1 : collapseLines (l1 :: l2 :: l3 :: rest3) =
        merge3 l1 k l2 l3 :: collapseLines rest3 := by
      rw [collapse_cons₂]; simp only [eq_self_iff_true, if_true, Bool.false_eq_true, if_false, hop, ht, hc]
    have hnr' : (!rematchRisk k rest3 && noRematch rest3) = true := by
      rw [noRematch_cons₂] at hnr
      simpa only [eq_self_iff_true, if_true, Bool.false_eq_true, if_false, hop, ht, hc]
        using hnr
    rw [Bool.and_eq_true, Bool.not_eq_true'] at hnr'
    obtain ⟨hrisk, hnr3⟩ := hnr'
    rw [h1, collapse_cons_no_match
      (show isOpenLine (merge3 l1 k l2 l3) = some k from isOpen_append (isOpen_append hop _) _)
      _ (rematchRisk_collapse hrisk), ih hnr3]
  | case5 l1 l2 k hop ht l3 rest3 hc ih =>
    have h1 : collapseLines (l1 :: l2 :: l3 :: rest3) =
        l1 :: collapseLines (l2 :: l3 :: rest3) := by
      rw [collapse_cons₂]; simp only [eq_self_iff_true, if_true, Bool.false_eq_true, if_false, hop, ht, hc]
    have hnr' : noRematch (l2 :: l3 :: rest3) = true := by
      rw [noRematch_cons₂] at hnr
      simpa only [eq_self_iff_true, if_true, Bool.false_eq_true, if_false, hop, ht, hc]
        using hnr
    rw [h1]
    have hl2 : collapseLines (l2 :: l3 :: rest3) = l2 :: collapseLines (l3 :: rest3) :=
      collapse_cons_none (text_not_open ht) _
    have hrisk : rematchRisk k (l2 :: collapseLines (l3 :: rest3)) = false := by
      simp only [rematchRisk, Bool.or_eq_false_iff]
      refine ⟨text_not_close ht, ?_⟩
      rw [ht, Bool.true_and]
      obtain ⟨y2, ys2, hcol2, hy2⟩ := collapse_head l3 rest3
      rw [hcol2]
      rcases hy2 with rfl | ⟨k2, hop2⟩
      · exact bool_eq_false hc
      · exact open_not_close hop2
    rw [hl2, collapse_cons_no_match hop _ hrisk]
    have hih := ih hnr'
    rw [hl2] at hih
    rw [hih]
  | case6 l1 l2 k hop ht ih =>
    have h1 : collapseLines [l1, l2] = l1 :: collapseLines [l2] := by
      rw [collapse_cons₂]; simp only [eq_self_iff_true, if_true, Bool.false_eq_true, if_false, hop, ht]
    have h2 : collapseLines [l2] = [l2] := rfl
    rw [h1, h2, h1, h2]
  | case7 l1 l2 rest2 k hop ht hc ih =>
    have h1 : collapseLines (l1 :: l2 :: rest2) = merge2 l1 k l2 :: collapseLines rest2 := by
      rw [collapse_cons₂]; simp only [eq_self_iff_true, if_true, Bool.false_eq_true, if_false, hop, ht, hc]
    have hnr' : (!rematchRisk k rest2 && noRematch rest2) = true := by
      rw [noRematch_cons₂] at hnr
      simpa only [eq_self_iff_true, if_true, Bool.false_eq_true, if_false, hop, ht, hc]
        using hnr
    rw [Bool.and_eq_true, Bool.not_eq_true'] at hnr'
    obtain ⟨hrisk, hnr2⟩ := hnr'
    rw [h1, collapse_cons_no_match
      (show isOpenLine (merge2 l1 k l2) = some k from isOpen_append hop _)
      _ (rematchRisk_collapse hrisk), ih hnr2]
  | case8 l1 l2 rest2 k hop ht hc ih =>
    have h1 : collapseLines (l1 :: l2 :: rest2) = l1 :: collapseLines (l2 :: rest2) := by
      rw [collapse_cons₂]; simp only [eq_self_iff_true, if_true, Bool.false_eq_true, if_false, hop, ht, hc]
    have hnr' : noRematch (l2 :: rest2) = true := by
      rw [noRematch_cons₂] at hnr
      simpa only [eq_self_iff_true, if_true, Bool.false_eq_true, if_false, hop, ht, hc]
        using hnr
    rw [h1]
    have hrisk : rematchRisk k (collapseLines (l2 :: rest2)) = false := by
      obtain ⟨y, ys, hcol, hy⟩ := collapse_head l2 rest2
      rw [hcol]
      simp only [rematchRisk, Bool.or_eq_false_iff]
      rcases hy with rfl | ⟨k2, hop2⟩
      · exact ⟨bool_eq_false hc, by rw [bool_eq_false ht, Bool.false_and]⟩
      · exact ⟨open_not_close hop2, by simp [open_not_text hop2]⟩
    rw [collapse_cons_no_match hop _ hrisk, ih hnr']

/-- C7 counterexample: the collapse pass is not idempotent in general —
after merging `<a>/  x/</a>`, the merged line `<a>x</a>` combines with
a following `</b>` line at the same indent on a second pass. -/
theorem C7_counterexample :
    collapseLines (collapseLines ["<a>".data, "  x".data, "</a>".data, "</b>".data]) ≠
      collapseLines ["<a>".data, "  x".data, "</a>".data, "</b>".data] := by decide

/-- C7 witness: the amended theorem on a four-line input that satisfies
the no-rematch condition. -/
theorem C7_witness :
    noRematch ["<a>".data, "  x".data, "</a>".data, "<b>".data] = true ∧
    collapseLines (collapseLines ["<a>".data, "  x".data, "</a>".data, "<b>".data]) =
      collapseLines ["<a>".data, "  x".data, "</a>".data, "<b>".data] :=
  ⟨by decide, C7_collapse_idem _ (by decide)⟩

/- ## C8: skip behaviour -/

/-- C8: a processed row that reaches a result (no fatal error) produces
no archive and exactly one informational skip message when its stripped
availability URL is the sentinel `Unavailable`, and exactly one archive
and no skip message otherwise. -/
theorem C8_skip_behavior {toc : String → Option Paper} {row : Row} {msgs : List Msg}
    {arch : Option (String × List ZipEntry)}
    (h : processRow toc row = .ok (msgs, arch)) :
    ∃ u, row "Available URL" = some u ∧
      (pyStrip u = "Unavailable" →
        arch = none ∧ msgs.countP Msg.isSkipInfo = 1) ∧
      (pyStrip u ≠ "Unavailable" →
        (∃ a, arch = some a) ∧ msgs.countP Msg.isSkipInfo = 0) := by
  unfold processRow at h
  simp only [Bind.bind, Except.bind, unwrapE] at h
  cases h0 : row (PROCEEDING_PREF ++ "#")
  case none => simp only [h0] at h; cases h
  case some tn0 =>
  simp only [h0] at h
  cases h1 : row "Title"
  case none => simp only [h1] at h; cases h
  case some t0 =>
  simp only [h1] at h
  cases h2 : toc (PROCEEDING_PREF ++ pyStrip tn0)
  case none => simp only [h2] at h; cases h
  case some paper =>
  simp only [h2] at h
  cases h3 : paper.paper_title
  case none => simp only [h3] at h; cases h
  case some pt =>
  simp only [h3] at h
  cases h4 : row "Available URL"
  case none => simp only [h4] at h; cases h
  case some u =>
  simp only [h4] at h
  refine ⟨u, rfl, ?_, ?_⟩
  · intro hu
    rw [if_pos hu] at h
    cases h
    refine ⟨rfl, ?_⟩
    rw [List.countP_append]
    have hz : (if pyStrip pt = pyStrip t0
        then [Msg.titleMatch (pyStrip tn0) (pyStrip pt)]
        else [Msg.titleMismatch (pyStrip tn0) (pyStrip pt) (pyStrip t0)]).countP
          Msg.isSkipInfo = 0 := by
      split <;> simp [List.countP_cons, Msg.isSkipInfo]
    rw [hz]
    simp [List.countP_cons, Msg.isSkipInfo]
  · intro hu
    rw [if_neg hu] at h
    cases h5 : doiParseE (pyStrip u)
    case error e => simp only [h5, Except.bind] at h; cases h
    case ok d1 =>
    simp only [h5, Except.bind] at h
    cases h6 : row "DOI"
    case none => simp only [h6] at h; cases h
    case some dt =>
    simp only [h6] at h
    cases h7 : doiParseE (pyStrip dt)
    case error e => simp only [h7, Except.bind] at h; cases h
    case ok d2 =>
    simp only [h7, Except.bind] at h
    cases h8 : create_zenodo_xml paper row
    case error e => simp only [h8, Except.bind] at h; cases h
    case ok z =>
    simp only [h8, Except.bind] at h
    cases h
    refine ⟨⟨_, rfl⟩, ?_⟩
    split <;> simp [List.countP_cons, Msg.isSkipInfo]

/-- C8 witness: the theorem evaluated on the skipped sample row (one
info message, no archive) and on the worked-example row (an archive,
no info message). -/
theorem C8_witness :
    (∃ u, skipRow "Available URL" = some u ∧
      (pyStrip u = "Unavailable" →
        skipRun.2 = none ∧ skipRun.1.countP Msg.isSkipInfo = 1) ∧
      (pyStrip u ≠ "Unavailable" →
        (∃ a, skipRun.2 = some a) ∧ skipRun.1.countP Msg.isSkipInfo = 0)) ∧
    (∃ u, sampleRow "Available URL" = some u ∧
      (pyStrip u = "Unavailable" →
        sampleRun.2 = none ∧ sampleRun.1.countP Msg.isSkipInfo = 1) ∧
      (pyStrip u ≠ "Unavailable" →
        (∃ a, sampleRun.2 = some a) ∧ sampleRun.1.countP Msg.isSkipInfo = 0)) :=
  ⟨C8_skip_behavior (show processRow skipToc skipRow = .ok (skipRun.1, skipRun.2) from rfl),
   C8_skip_behavior (show processRow sampleToc sampleRow = .ok (sampleRun.1, sampleRun.2) from rfl)⟩

/- ## C10: the skip check runs after the join and title lookup -/

/-- C10: the `Unavailable` check is evaluated only after the record
join and the title lookup, so a row with the sentinel URL still aborts
fatally when its tracking key has no record, or when the matched record
lacks a title element. -/
theorem C10_join_before_skip :
    (∀ (toc : String → Option Paper) (row : Row) (tn t : String),
      row (PROCEEDING_PREF ++ "#") = some tn → row "Title" = some t →
      row "Available URL" = some "Unavailable" →
      toc (PROCEEDING_PREF ++ pyStrip tn) = none →
      processRow toc row =
        .error (.valueErr ("Tracking number #" ++ pyStrip tn ++ " is missing in XML"))) ∧
    (∀ (toc : String → Option Paper) (row : Row) (tn t : String) (paper : Paper),
      row (PROCEEDING_PREF ++ "#") = some tn → row "Title" = some t →
      row "Available URL" = some "Unavailable" →
      toc (PROCEEDING_PREF ++ pyStrip tn) = some paper →
      paper.paper_title = none →
      processRow toc row =
        .error (.valueErr "Element /erights_record/paper/paper_title is missing in XML")) := by
  constructor
  · intro toc row tn t h0 h1 _h2 h3
    unfold processRow
    simp only [Bind.bind, Except.bind, unwrapE, h0, h1, h3]
  · intro toc row tn t paper h0 h1 _h2 h3 h4
    unfold processRow
    simp only [Bind.bind, Except.bind, unwrapE, h0, h1, h3, h4]

/-- C10 witness: a sentinel row whose key is missing from the records
still dies with the missing-record error; one whose record has no title
dies with the missing-element error. -/
theorem C10_witness :
    processRow (fun _ => none) skipRow =
      .error (.valueErr "Tracking number #43 is missing in XML") ∧
    processRow titlelessToc skipRow =
      .error (.valueErr "Element /erights_record/paper/paper_title is missing in XML") :=
  ⟨C10_join_before_skip.1 (fun _ => none) skipRow "43" "Skipped Paper" rfl rfl rfl rfl,
   C10_join_before_skip.2 titlelessToc skipRow "43" "Skipped Paper" titlelessPaper
     rfl rfl rfl rfl rfl⟩

/- ## C9: attribute rendering -/

/-- C9 counterexample: `my_prettify` instantiates `MyFormatter()` with
the bs4 default `empty_attributes_are_booleans = False`, so an
empty-string attribute value is emitted as an ordinary (empty-valued)
attribute, not as a boolean-style valueless attribute. -/
theorem C9_counterexample :
    myFormatterAttributes myFormatterEmptyAttrsAreBooleans [("ID", "")] = [("ID", some "")] ∧
    [("ID", (some "" : Option String))] ≠ [("ID", (none : Option String))] := by decide

/-- C9 amended: `MyFormatter.attributes` emits the attributes in
insertion order (the attribute-name sequence is preserved pointwise),
and under the formatter the program actually constructs — where
`empty_attributes_are_booleans` keeps its `False` default — every value
is passed through unchanged; boolean-style (valueless) rendering would
require the flag to be enabled. -/
theorem C9_amended (eab : Bool) (attrs : List (String × String)) :
    (myFormatterAttributes eab attrs).map Prod.fst = attrs.map Prod.fst ∧
    myFormatterAttributes myFormatterEmptyAttrsAreBooleans attrs =
      attrs.map (fun kv => (kv.1, some kv.2)) := by
  constructor
  · simp [myFormatterAttributes, List.map_map, Function.comp]
  · simp [myFormatterAttributes, myFormatterEmptyAttrsAreBooleans]

end MG
